import Mathlib

/-!
Shallow embedding of the Pong-variant game in src/main.py.

Conventions used throughout:
* pygame integer rectangles are modelled as records of integers; `left`,
  `right`, `top`, `bottom`, `centerx`, `centery` follow pygame's accessors
  (centre uses floor division by 2, as pygame's C shift does).
* Python floats are idealised as rationals (ℚ); assigning a float to a
  pygame rect attribute truncates toward zero, modelled by `ratTrunc`.
* Screen coordinates grow downward: `y = 0` is the top wall.
* Randomness (random.random / randint / uniform / choice) is passed in
  explicitly as oracle arguments, so every operation is a pure function of
  the state and the drawn values.
* Trigonometry on random angles is represented by passing the drawn
  cosine/sine values themselves as oracle inputs (fields `c`, `s`, `vx`,
  `vy` below); no game-logic claim depends on their trigonometric origin.
-/

namespace Pong

/-- Default configuration constants from src/main.py lines 28-35
(the values used when config.json is absent). -/
def WIDTH : Int := 800

/-- Screen height default. -/
def HEIGHT : Int := 600

/-- Frames per second default. -/
def FPS : Int := 60

/-- Paddle width default. -/
def PADDLE_WIDTH : Int := 15

/-- Paddle height default. -/
def PADDLE_HEIGHT : Int := 90

/-- Ball size default. -/
def BALL_SIZE : Int := 15

/-- AI paddle speed default. -/
def AI_SPEED : Int := 7

/-- Element-tag catalog default. -/
def ELEMENTS : List String := ["Fire", "Water", "Earth", "Air", "Void", "Time"]

/-- Truncation toward zero: Python's float→int conversion used when a
float is assigned to a pygame rect attribute. -/
def ratTrunc (q : ℚ) : Int := if 0 ≤ q then ⌊q⌋ else ⌈q⌉

/-- An RGB colour (three 8-bit channels), mirroring the Color dataclass. -/
structure Color where
  r : Int
  g : Int
  b : Int
deriving DecidableEq

/-- A pygame.Rect: integer position and size. -/
structure Rect where
  x : Int
  y : Int
  w : Int
  h : Int
deriving DecidableEq

/-- Left edge of a rect. -/
def Rect.left (r : Rect) : Int := r.x

/-- Right edge of a rect. -/
def Rect.right (r : Rect) : Int := r.x + r.w

/-- Top edge of a rect. -/
def Rect.top (r : Rect) : Int := r.y

/-- Bottom edge of a rect. -/
def Rect.bottom (r : Rect) : Int := r.y + r.h

/-- Horizontal centre (pygame uses floor division by 2). -/
def Rect.centerx (r : Rect) : Int := r.x + r.w / 2

/-- Vertical centre (pygame uses floor division by 2). -/
def Rect.centery (r : Rect) : Int := r.y + r.h / 2

/-- The pygame center setter: `rect.center = (cx, cy)` repositions the
rect so its centre is at the given point. -/
def Rect.setCenter (r : Rect) (cx cy : Int) : Rect :=
  { r with x := cx - r.w / 2, y := cy - r.h / 2 }

/-- pygame's Rect.colliderect overlap test (strict inequalities, as in
pygame's do_rects_intersect). -/
def Rect.colliderect (a b : Rect) : Bool :=
  decide (a.x < b.x + b.w) && decide (b.x < a.x + a.w) &&
  decide (a.y < b.y + b.h) && decide (b.y < a.y + a.h)

/-- A particle (src/main.py lines 106-119).  The source stores `speed` and
`angle` and moves by (cos angle · speed, sin angle · speed) each update;
here the per-step displacement drawn at creation is stored directly as the
rational pair (vx, vy), since cos/sin of the random angle are themselves
part of the random draw. -/
structure Particle where
  x : ℚ
  y : ℚ
  color : Color
  size : ℚ
  vx : ℚ
  vy : ℚ
deriving DecidableEq

/-- Random draws consumed by the Particle constructor: the size from
randint(2,5) and the displacement components speed·cos(angle),
speed·sin(angle). -/
structure PRand where
  size : ℚ
  vx : ℚ
  vy : ℚ

/-- Particle.__init__ with the random draws made explicit. -/
def Particle.make (x y : ℚ) (color : Color) (r : PRand) : Particle :=
  ⟨x, y, color, r.size, r.vx, r.vy⟩

/-- The state mutation performed by Particle.update: move along the fixed
direction and shrink the size by 0.1. -/
def Particle.step (p : Particle) : Particle :=
  { p with x := p.x + p.vx, y := p.y + p.vy, size := p.size - 1/10 }

/-- The boolean returned by Particle.update (after the mutation):
whether the particle has expired. -/
def Particle.expired (p : Particle) : Bool := decide (p.size ≤ 0)

/-- Particle.update iterated k times (position/size part). -/
def Particle.iter (p : Particle) : Nat → Particle
  | 0 => p
  | n + 1 => (Particle.iter p n).step

/-- The list comprehension pattern
`[p for p in particles if not p.update()]`: every particle is stepped,
and the expired ones are dropped. -/
def particlesPass (ps : List Particle) : List Particle :=
  (ps.map Particle.step).filter (fun p => !p.expired)

/-- The keyboard state read by the player paddle (only K_w, K_s and
K_LSHIFT are consulted). -/
structure Keys where
  w : Bool
  s : Bool
  lshift : Bool

/-- A paddle (src/main.py lines 124-160). -/
structure Paddle where
  rect : Rect
  element : String
  is_ai : Bool
  charge : ℚ
  max_charge : ℚ
  combo_meter : Nat
  combo_multiplier : ℚ
  particles : List Particle

/-- Paddle.__init__. -/
def Paddle.init (x y : Int) (element : String) (ai : Bool) : Paddle :=
  { rect := ⟨x, y, PADDLE_WIDTH, PADDLE_HEIGHT⟩, element := element,
    is_ai := ai, charge := 0, max_charge := 100,
    combo_meter := 0, combo_multiplier := 1, particles := [] }

/-- A ball (src/main.py lines 171-195). -/
structure Ball where
  rect : Rect
  dx : ℚ
  dy : ℚ
  element : String
  dimension : Int
  trail : List (Int × Int)
  particles : List Particle

/-- Paddle._ai_move: chase the ball's vertical centre at AI_SPEED, the
move gated (not clamped) by the bounds checks. -/
def Paddle.aiMove (p : Paddle) (ball : Ball) : Paddle :=
  if p.rect.centery < ball.rect.centery ∧ p.rect.bottom < HEIGHT then
    { p with rect := { p.rect with y := p.rect.y + AI_SPEED } }
  else if p.rect.centery > ball.rect.centery ∧ p.rect.top > 0 then
    { p with rect := { p.rect with y := p.rect.y - AI_SPEED } }
  else p

/-- Random draws consumed by Paddle._update_particles: whether
random.random() < 0.2 fired, the randint y position along the paddle, and
the new particle's own draws. -/
structure PaddleRand where
  spawn : Bool
  spawnY : Int
  pr : PRand

/-- Paddle._update_particles: age/drop the existing particles, then
probabilistically append one new particle at a random point along the
paddle's height, coloured by the colour manager. -/
def Paddle.updateParticles (p : Paddle) (rnd : PaddleRand)
    (getColor : String → Color) : Paddle :=
  let ps := particlesPass p.particles
  if rnd.spawn then
    { p with particles :=
        ps ++ [Particle.make p.rect.centerx rnd.spawnY (getColor p.element) rnd.pr] }
  else
    { p with particles := ps }

/-- Paddle.update (src/main.py lines 135-149): player branch reads the
keys with pre-move bounds gates and updates the charge meter; AI branch
calls _ai_move; both then run _update_particles. -/
def Paddle.update (p : Paddle) (keys : Keys) (ball : Ball) (rnd : PaddleRand)
    (getColor : String → Color) : Paddle :=
  let p1 :=
    if p.is_ai then
      p.aiMove ball
    else
      let pa := if keys.w = true ∧ p.rect.top > 0 then
          { p with rect := { p.rect with y := p.rect.y - 5 } } else p
      let pb := if keys.s = true ∧ pa.rect.bottom < HEIGHT then
          { pa with rect := { pa.rect with y := pa.rect.y + 5 } } else pa
      if keys.lshift then
        { pb with charge := min (pb.charge + 1) pb.max_charge }
      else
        { pb with charge := max (pb.charge - 1/2) 0 }
  p1.updateParticles rnd getColor

/-- Random draws consumed by Ball.reset: the cosine and sine of the
uniform angle in (-π/4, π/4), the random horizontal sign from
choice([-1,1]), and the random element tag. -/
structure ResetRand where
  c : ℚ
  s : ℚ
  sgn : Int
  elem : String

/-- Ball.reset (src/main.py lines 178-185): recentre the rect, draw a new
velocity of speed 5, a new element tag, and dimension 0.  The trail and
the particle list are not touched. -/
def Ball.reset (b : Ball) (rr : ResetRand) : Ball :=
  { b with rect := b.rect.setCenter (WIDTH / 2) (HEIGHT / 2),
           dx := 5 * rr.c * (rr.sgn : ℚ),
           dy := 5 * rr.s,
           element := rr.elem,
           dimension := 0 }

/-- Random draws consumed by Ball.update: whether random.random() < 0.2
fired and the draws for the spawned particle. -/
structure BallRand where
  spawn : Bool
  pr : PRand

/-- Ball.update (src/main.py lines 187-195): move by velocity × time
factor (float assignment to the int rect truncates toward zero), push the
new centre onto the front of the trail, pop the last entry if the trail
exceeds 20, probabilistically append a particle at the centre, then
age/drop all particles (including a just-spawned one). -/
def Ball.update (b : Ball) (tf : ℚ) (rnd : BallRand)
    (getColor : String → Color) : Ball :=
  let nx := ratTrunc ((b.rect.x : ℚ) + b.dx * tf)
  let ny := ratTrunc ((b.rect.y : ℚ) + b.dy * tf)
  let rect := { b.rect with x := nx, y := ny }
  let t1 := (rect.centerx, rect.centery) :: b.trail
  let trail := if t1.length > 20 then t1.dropLast else t1
  let ps1 :=
    if rnd.spawn then
      b.particles ++ [Particle.make rect.centerx rect.centery (getColor b.element) rnd.pr]
    else b.particles
  { b with rect := rect, trail := trail, particles := particlesPass ps1 }

/-- A power-up (src/main.py lines 211-220); only the fields and the pulse
update are game state, drawing is external. -/
structure PowerUp where
  rect : Rect
  type : String
  color : Color
  pulse : ℚ

/-- PowerUp.update: advance the pulse phase by 0.1. -/
def PowerUp.update (p : PowerUp) : PowerUp := { p with pulse := p.pulse + 1/10 }

/-- An interdimensional rift (src/main.py lines 227-242). -/
structure InterdimensionalRift where
  x : Int
  y : Int
  radius : Int
  destination : Int
  color : Color
  particles : List Particle

/-- The full game state owned by the Game class (rendering and clock
state omitted; they have no effect on the fields below). -/
structure Game where
  player_paddle : Paddle
  ai_paddle : Paddle
  ball : Ball
  powerups : List PowerUp
  rifts : List InterdimensionalRift
  score : Int × Int
  time_factor : ℚ
  reality_shift : ℚ
  particles : List Particle

/-- Game._create_collision_particles: append num_particles particles at
the ball's centre, in the given colour; the supply provides each new
particle's random draws. -/
def Game.createCollisionParticles (g : Game) (n : Nat) (color : Color)
    (supply : Nat → PRand) : Game :=
  { g with particles := g.particles ++
      (List.range n).map (fun i =>
        Particle.make g.ball.rect.centerx g.ball.rect.centery color (supply i)) }

/-- The first stanza of Game._handle_collisions (src/main.py lines
302-303): reflect the vertical velocity when the ball touches the top or
bottom wall. -/
def Game.wallBounce (g : Game) : Game :=
  if g.ball.rect.top ≤ 0 ∨ g.ball.rect.bottom ≥ HEIGHT then
    { g with ball := { g.ball with dy := g.ball.dy * (-1) } }
  else g

/-- The player iteration of the paddle loop in Game._handle_collisions
(lines 305-310): on rect overlap, scale dx by −1.1, increment the
player's combo meter, recompute its multiplier as 1 + (meter // 3) · 0.2,
and spawn 20 particles at the ball's centre in the ball's element
colour. -/
def Game.paddleHitPlayer (g : Game) (getColor : String → Color)
    (sup : Nat → PRand) : Game :=
  if g.ball.rect.colliderect g.player_paddle.rect then
    let m := g.player_paddle.combo_meter + 1
    Game.createCollisionParticles
      { g with
        ball := { g.ball with dx := g.ball.dx * (-11/10) },
        player_paddle := { g.player_paddle with
          combo_meter := m,
          combo_multiplier := 1 + ((m / 3 : Nat) : ℚ) * (1/5) } }
      20 (getColor g.ball.element) sup
  else g

/-- The AI iteration of the same loop. -/
def Game.paddleHitAI (g : Game) (getColor : String → Color)
    (sup : Nat → PRand) : Game :=
  if g.ball.rect.colliderect g.ai_paddle.rect then
    let m := g.ai_paddle.combo_meter + 1
    Game.createCollisionParticles
      { g with
        ball := { g.ball with dx := g.ball.dx * (-11/10) },
        ai_paddle := { g.ai_paddle with
          combo_meter := m,
          combo_multiplier := 1 + ((m / 3 : Nat) : ℚ) * (1/5) } }
      20 (getColor g.ball.element) sup
  else g

/-- Game._handle_collisions (src/main.py lines 301-310): the wall check
followed by the two unrolled iterations of the paddle loop (player
first, then AI, as in the source's list order).  getColor plays the role
of COLOR_MANAGER.get; sup1/sup2 supply the particle draws. -/
def Game.handleCollisions (g : Game) (getColor : String → Color)
    (sup1 sup2 : Nat → PRand) : Game :=
  ((g.wallBounce).paddleHitPlayer getColor sup1).paddleHitAI getColor sup2

/-- Game._update_game_state (src/main.py lines 312-320): if the ball has
crossed the left or right screen edge, award the point (left exit scores
for side 1, otherwise side 0), reset the ball, and zero both combo
meters.  The combo multipliers are not touched. -/
def Game.updateGameState (g : Game) (rr : ResetRand) : Game :=
  if g.ball.rect.left ≤ 0 ∨ g.ball.rect.right ≥ WIDTH then
    let sc :=
      if g.ball.rect.left ≤ 0 then (g.score.1, g.score.2 + 1)
      else (g.score.1 + 1, g.score.2)
    { g with score := sc,
             ball := g.ball.reset rr,
             player_paddle := { g.player_paddle with combo_meter := 0 },
             ai_paddle := { g.ai_paddle with combo_meter := 0 } }
  else g

/-- DynamicColorManager (src/main.py lines 50-64), idealised over exact
rationals: the state tracked per element is the hue of its stored colour;
the rgb→hsv→rgb round trip with 8-bit quantisation is idealised as exact
(quantisation error per step is below a third of a percent of the hue
circle and is the tolerance the specification grants).  update advances
the accumulator by 0.01 and adds the accumulated shift to each stored
element hue, modulo 1 (Python's % 1.0 on nonnegative-divisor floats is
the floor-based fractional part, Int.fract). -/
structure DynamicColorManager where
  shift : ℚ
  hue : String → ℚ

/-- DynamicColorManager.update. -/
def DynamicColorManager.update (m : DynamicColorManager) : DynamicColorManager :=
  let ns := m.shift + 1/100
  { shift := ns,
    hue := fun e => if e ∈ ELEMENTS then Int.fract (m.hue e + ns) else m.hue e }

/-- DynamicColorManager.update iterated n times. -/
def DynamicColorManager.iterUpdate (m : DynamicColorManager) : Nat → DynamicColorManager
  | 0 => m
  | n + 1 => (DynamicColorManager.iterUpdate m n).update

/-- A value stored in the configuration dictionary: the numeric settings
or the element-tag list. -/
inductive ConfigVal where
  | int (n : Int)
  | strs (l : List String)
deriving DecidableEq

/-- The parsed configuration dictionary. -/
abbrev ConfigDict := List (String × ConfigVal)

/-- dict.get(key, default). -/
def ConfigDict.getD (c : ConfigDict) (k : String) (d : ConfigVal) : ConfigVal :=
  match c.find? (fun kv => kv.1 == k) with
  | some kv => kv.2
  | none => d

/-- The possible outcomes of opening and parsing config.json. -/
inductive FileOutcome where
  | missing
  | unreadable
  | malformed
  | valid (c : ConfigDict)

/-- load_config (src/main.py lines 17-23): only FileNotFoundError is
caught (logged, empty dict returned — the Bool records that the warning
was logged); a file that exists but cannot be read (OSError) or does not
parse (JSONDecodeError) raises an uncaught exception, modelled as an
error result.  CONFIG = load_config() runs at module import, outside the
try block guarding the main loop. -/
def load_config : FileOutcome → Except String (ConfigDict × Bool)
  | .missing => .ok ([], true)
  | .unreadable => .error "OSError"
  | .malformed => .error "JSONDecodeError"
  | .valid c => .ok (c, false)

/-- Whether configuration loading recovered (returned a dictionary)
rather than raising. -/
def loadRecovers (r : Except String (ConfigDict × Bool)) : Bool :=
  match r with
  | .ok _ => true
  | .error _ => false

/-- CONFIG.get with the built-in default, per setting (lines 28-35). -/
def widthSetting (c : ConfigDict) : ConfigVal := c.getD "WIDTH" (.int 800)

/-- HEIGHT setting with default. -/
def heightSetting (c : ConfigDict) : ConfigVal := c.getD "HEIGHT" (.int 600)

/-- FPS setting with default. -/
def fpsSetting (c : ConfigDict) : ConfigVal := c.getD "FPS" (.int 60)

/-- PADDLE_WIDTH setting with default. -/
def paddleWidthSetting (c : ConfigDict) : ConfigVal := c.getD "PADDLE_WIDTH" (.int 15)

/-- PADDLE_HEIGHT setting with default. -/
def paddleHeightSetting (c : ConfigDict) : ConfigVal := c.getD "PADDLE_HEIGHT" (.int 90)

/-- BALL_SIZE setting with default. -/
def ballSizeSetting (c : ConfigDict) : ConfigVal := c.getD "BALL_SIZE" (.int 15)

/-- AI_SPEED setting with default. -/
def aiSpeedSetting (c : ConfigDict) : ConfigVal := c.getD "AI_SPEED" (.int 7)

/-- ELEMENTS setting with default. -/
def elementsSetting (c : ConfigDict) : ConfigVal :=
  c.getD "ELEMENTS" (.strs ["Fire", "Water", "Earth", "Air", "Void", "Time"])

/-- The per-move overshoot bound for a paddle: the distance it moves in
one gated step (AI_SPEED for the AI paddle, 5 for the player). -/
def moveLimit (p : Paddle) : Int := if p.is_ai then AI_SPEED else 5

/-- The window a paddle's rect actually stays in: it may overshoot each
screen edge by at most one move minus one pixel, because the bounds are
checked before moving, not after. -/
def inWindow (p : Paddle) : Prop :=
  1 - moveLimit p ≤ p.rect.top ∧ p.rect.bottom ≤ HEIGHT + moveLimit p - 1

/-- The combo bookkeeping invariant the specification asserts: the stored
multiplier is derived from the current meter. -/
def comboInv (p : Paddle) : Prop :=
  p.combo_multiplier = 1 + ((p.combo_meter / 3 : Nat) : ℚ) * (1/5)

instance (p : Paddle) : Decidable (comboInv p) := by
  unfold comboInv; infer_instance

instance (p : Paddle) : Decidable (inWindow p) := by
  unfold inWindow; infer_instance

/-! Concrete sample states used to evaluate the verified operations on
explicit inputs. -/

/-- A fixed colour used wherever a colour-manager lookup is needed on a
concrete input. -/
def whiteC : Color := ⟨255, 255, 255⟩

/-- A constant colour-manager lookup. -/
def constColor : String → Color := fun _ => whiteC

/-- Fixed random draws for one particle. -/
def prand0 : PRand := ⟨3, 1, 1⟩

/-- Ball-update draws with no particle spawned. -/
def ballRand0 : BallRand := ⟨false, prand0⟩

/-- Paddle-update draws with no particle spawned. -/
def paddleRand0 : PaddleRand := ⟨false, 0, prand0⟩

/-- Fixed reset draws: angle 0 (cosine 1, sine 0), positive sign,
element Fire. -/
def resetRand0 : ResetRand := ⟨1, 0, 1, "Fire"⟩

/-- A constant particle-draw supply. -/
def supply0 : Nat → PRand := fun _ => prand0

/-- A ball near the middle of the screen moving right. -/
def ball0 : Ball :=
  { rect := ⟨392, 292, 15, 15⟩, dx := 5, dy := 0, element := "Fire",
    dimension := 0, trail := [], particles := [] }

/-- The player paddle in its initial position. -/
def player0 : Paddle := Paddle.init 50 255 "Fire" false

/-- The AI paddle in its initial position. -/
def ai0 : Paddle := Paddle.init 735 255 "Water" true

/-- A game state matching the initial layout. -/
def game0 : Game :=
  { player_paddle := player0, ai_paddle := ai0, ball := ball0,
    powerups := [], rifts := [], score := (0, 0),
    time_factor := 1, reality_shift := 0, particles := [] }

/-- A ball overlapping the player paddle (and not the AI paddle). -/
def ballHit : Ball :=
  { rect := ⟨55, 290, 15, 15⟩, dx := -5, dy := 0, element := "Fire",
    dimension := 0, trail := [], particles := [] }

/-- A game state in which the ball overlaps the player paddle. -/
def gameHit : Game := { game0 with ball := ballHit }

/-- A game state with three consecutive player hits banked (meter 3,
multiplier 1.2 — the value the collision pass computes for meter 3) and
the ball past the left edge. -/
def gameScored : Game :=
  { game0 with
    player_paddle := { player0 with combo_meter := 3, combo_multiplier := 6/5 },
    ball := { ball0 with rect := ⟨-1, 292, 15, 15⟩ } }

/-- A player paddle one pixel below the top wall. -/
def paddleEdge : Paddle := Paddle.init 50 1 "Fire" false

/-- A ball one pixel below the top wall moving downward at 3. -/
def ballTop : Ball :=
  { rect := ⟨392, 1, 15, 15⟩, dx := 0, dy := 3, element := "Fire",
    dimension := 0, trail := [], particles := [] }

/-- The game state with that ball. -/
def gameTop : Game := { game0 with ball := ballTop }

/-- The same position moving upward at 3 (toward the top wall). -/
def gameTopUp : Game := { game0 with ball := { ballTop with dy := -3 } }

/-! Theorems. -/

/-- Adding inside the fractional part: the inner fractional part can be
dropped. -/
theorem fract_fract_add (a b : ℚ) :
    Int.fract (Int.fract a + b) = Int.fract (a + b) := by
  have h : Int.fract a + b = a + b - (⌊a⌋ : ℚ) := by rw [Int.fract]; ring
  rw [h, Int.fract_sub_int]

/-- The size left after n particle updates. -/
theorem particle_iter_size (p : Particle) (n : Nat) :
    (p.iter n).size = p.size - n / 10 := by
  induction n with
  | zero => simp [Particle.iter]
  | succ n ih =>
    simp only [Particle.iter, Particle.step, ih]
    push_cast
    ring

/-- C9: for every particle with positive size, repeated update() calls
return the expired signal (size ≤ 0) after finitely many steps — exactly
at call number ⌈size / 0.1⌉ = ⌈10 · size⌉ and at no earlier call, the
count proportional to the initial size divided by the 0.1 shrink rate. -/
theorem particle_update_expires (p : Particle) (h : 0 < p.size) :
    (p.iter (⌈10 * p.size⌉.toNat)).expired = true ∧
    ∀ k, k < ⌈10 * p.size⌉.toNat → (p.iter k).expired = false := by
  have hc0 : (0:ℤ) ≤ ⌈(10:ℚ) * p.size⌉ := Int.ceil_nonneg (by linarith)
  constructor
  · rw [Particle.expired, decide_eq_true_eq, particle_iter_size]
    have hle : (10:ℚ) * p.size ≤ ((⌈(10:ℚ) * p.size⌉ : ℤ) : ℚ) := Int.le_ceil _
    have hcast : ((⌈(10:ℚ) * p.size⌉.toNat : Nat) : ℚ) = ((⌈(10:ℚ) * p.size⌉ : ℤ) : ℚ) := by
      exact_mod_cast Int.toNat_of_nonneg hc0
    rw [hcast]
    linarith
  · intro k hk
    rw [Particle.expired, decide_eq_false_iff_not, not_le, particle_iter_size]
    have hklt : (k : ℤ) < ⌈(10:ℚ) * p.size⌉ := by omega
    have h1 : ((k : Nat) : ℚ) + 1 ≤ ((⌈(10:ℚ) * p.size⌉ : ℤ) : ℚ) := by
      exact_mod_cast hklt
    have h2 : ((⌈(10:ℚ) * p.size⌉ : ℤ) : ℚ) < 10 * p.size + 1 := Int.ceil_lt_add_one _
    have h3 : ((k : Nat) : ℚ) < 10 * p.size := by linarith
    linarith

/-- C9 witness: a particle of size 3 expires exactly at the 30th update. -/
theorem particle_update_expires_witness :
    (0:ℚ) < (Particle.make 0 0 whiteC prand0).size ∧
    ((Particle.make 0 0 whiteC prand0).iter
        (⌈10 * (Particle.make 0 0 whiteC prand0).size⌉.toNat)).expired = true ∧
    ∀ k, k < ⌈10 * (Particle.make 0 0 whiteC prand0).size⌉.toNat →
      ((Particle.make 0 0 whiteC prand0).iter k).expired = false :=
  ⟨by decide, particle_update_expires (Particle.make 0 0 whiteC prand0) (by decide)⟩

/-- Truncation toward zero maps integer values to themselves. -/
theorem ratTrunc_intCast (n : Int) : ratTrunc ((n : ℚ)) = n := by
  unfold ratTrunc
  by_cases h : (0:ℚ) ≤ (n:ℚ)
  · rw [if_pos h, Int.floor_intCast]
  · rw [if_neg h, Int.ceil_intCast]

/-- Truncation evaluated through an integer-valued expression. -/
theorem ratTrunc_eval {q : ℚ} {n : Int} (h : q = (n : ℚ)) : ratTrunc q = n := by
  rw [h, ratTrunc_intCast]

/-- After Ball.reset the rect is centred on the screen. -/
theorem reset_rect_center (b : Ball) (rr : ResetRand) :
    (b.reset rr).rect.centerx = WIDTH / 2 ∧ (b.reset rr).rect.centery = HEIGHT / 2 := by
  constructor
  · show WIDTH / 2 - b.rect.w / 2 + b.rect.w / 2 = WIDTH / 2
    omega
  · show HEIGHT / 2 - b.rect.h / 2 + b.rect.h / 2 = HEIGHT / 2
    omega

/-- C10: Ball.reset recentres the rect, zeroes the dimension, and leaves
the trail, the owned particle list and the rect size unchanged; hence the
scoring pass, which resets the ball, also preserves the ball's trail and
particle list, so the trail still holds the centres recorded before the
point was scored. -/
theorem reset_preserves_trail_particles :
    (∀ (b : Ball) (rr : ResetRand),
      (b.reset rr).trail = b.trail ∧ (b.reset rr).particles = b.particles ∧
      (b.reset rr).rect.w = b.rect.w ∧ (b.reset rr).rect.h = b.rect.h ∧
      (b.reset rr).rect.centerx = WIDTH / 2 ∧
      (b.reset rr).rect.centery = HEIGHT / 2 ∧
      (b.reset rr).dimension = 0) ∧
    (∀ (g : Game) (rr : ResetRand),
      (g.updateGameState rr).ball.trail = g.ball.trail ∧
      (g.updateGameState rr).ball.particles = g.ball.particles) := by
  constructor
  · intro b rr
    refine ⟨rfl, rfl, rfl, rfl, ?_, ?_, rfl⟩
    · show WIDTH / 2 - b.rect.w / 2 + b.rect.w / 2 = WIDTH / 2
      omega
    · show HEIGHT / 2 - b.rect.h / 2 + b.rect.h / 2 = HEIGHT / 2
      omega
  · intro g rr
    unfold Game.updateGameState
    split_ifs <;> exact ⟨rfl, rfl⟩

/-- C8 counterexample: a settings file that exists but cannot be read is
not recovered — load_config catches only FileNotFoundError, so the
OSError propagates out of the module-level CONFIG assignment. -/
theorem load_config_unreadable_counterexample :
    loadRecovers (load_config FileOutcome.unreadable) = false := by decide

/-- C8 amended: a missing settings file is recovered locally (the warning
is logged and an empty dictionary returned) and every setting then takes
its built-in default; an unreadable or unparsable file instead raises an
uncaught error. -/
theorem load_config_missing_defaults :
    load_config .missing = .ok (([] : ConfigDict), true) ∧
    loadRecovers (load_config .missing) = true ∧
    widthSetting [] = .int 800 ∧
    heightSetting [] = .int 600 ∧
    fpsSetting [] = .int 60 ∧
    paddleWidthSetting [] = .int 15 ∧
    paddleHeightSetting [] = .int 90 ∧
    ballSizeSetting [] = .int 15 ∧
    aiSpeedSetting [] = .int 7 ∧
    elementsSetting [] = .strs ["Fire", "Water", "Earth", "Air", "Void", "Time"] ∧
    loadRecovers (load_config .unreadable) = false ∧
    loadRecovers (load_config .malformed) = false := by
  refine ⟨rfl, rfl, rfl, rfl, rfl, rfl, rfl, rfl, rfl, rfl, rfl, rfl⟩

/-- The trail transformation performed by Ball.update: push the new
centre, then pop the oldest entry if the length exceeds 20. -/
theorem trailPush_spec (c : Int × Int) (t : List (Int × Int)) (h : t.length ≤ 20) :
    (if (c :: t).length > 20 then (c :: t).dropLast else (c :: t)).length ≤ 20 ∧
    (if (c :: t).length > 20 then (c :: t).dropLast else (c :: t)).head? = some c ∧
    (if (c :: t).length > 20 then (c :: t).dropLast else (c :: t)).tail = t.take 19 := by
  by_cases h20 : t.length = 20
  · rw [if_pos (by simp [h20])]
    rw [List.dropLast_eq_take]
    simp only [List.length_cons, h20]
    rw [show (20 + 1 - 1 : Nat) = 19 + 1 from rfl, List.take_succ_cons]
    refine ⟨?_, rfl, rfl⟩
    simp
  · have h19 : t.length ≤ 19 := by omega
    rw [if_neg (by simp; omega)]
    refine ⟨by simp; omega, rfl, ?_⟩
    simp [List.take_of_length_le h19]

/-- C7: after every Ball.update the trail has at most 20 entries, its
head is the just-recorded centre of the ball, and its tail is the
previous trail truncated to 19 entries — newest first, each later entry
older. -/
theorem ball_update_trail (b : Ball) (tf : ℚ) (rnd : BallRand)
    (getColor : String → Color) (h : b.trail.length ≤ 20) :
    (b.update tf rnd getColor).trail.length ≤ 20 ∧
    (b.update tf rnd getColor).trail.head? =
      some ((b.update tf rnd getColor).rect.centerx,
            (b.update tf rnd getColor).rect.centery) ∧
    (b.update tf rnd getColor).trail.tail = b.trail.take 19 :=
  trailPush_spec _ b.trail h

/-- C7 witness: updating the sample ball keeps the trail within bounds
with the new centre at the head. -/
theorem ball_update_trail_witness :
    ball0.trail.length ≤ 20 ∧
    ((ball0.update 1 ballRand0 constColor).trail.length ≤ 20 ∧
     (ball0.update 1 ballRand0 constColor).trail.head? =
       some ((ball0.update 1 ballRand0 constColor).rect.centerx,
             (ball0.update 1 ballRand0 constColor).rect.centery) ∧
     (ball0.update 1 ballRand0 constColor).trail.tail = ball0.trail.take 19) :=
  ⟨by decide, ball_update_trail ball0 1 ballRand0 constColor (by decide)⟩

/-- The colour cycler's shift accumulator grows by 0.01 per update. -/
theorem cycler_iter_shift (m : DynamicColorManager) (n : Nat) :
    (m.iterUpdate n).shift = m.shift + n / 100 := by
  induction n with
  | zero => simp [DynamicColorManager.iterUpdate]
  | succ n ih =>
    simp only [DynamicColorManager.iterUpdate, DynamicColorManager.update, ih]
    push_cast
    ring

/-- C1 counterexample: starting from shift 0 and hue 0, two updates move
the hue of a fixed element ("Fire") to 0.03, not to (0 + 2·0.01) mod 1 —
the accumulated shift is re-applied each frame to an already-shifted
colour, so the advance is quadratic in the number of frames, far outside
any quantisation tolerance. -/
theorem hue_claim_counterexample :
    ((DynamicColorManager.mk 0 (fun _ => 0)).iterUpdate 2).hue "Fire"
      ≠ Int.fract ((0:ℚ) + 2 * (1/100)) := by
  have hu : ∀ m : DynamicColorManager,
      (m.update).hue "Fire" = Int.fract (m.hue "Fire" + (m.shift + 1/100)) := by
    intro m
    show (if "Fire" ∈ ELEMENTS then Int.fract (m.hue "Fire" + (m.shift + 1/100))
          else m.hue "Fire") = _
    rw [if_pos (by decide)]
  have hs : ∀ m : DynamicColorManager, (m.update).shift = m.shift + 1/100 :=
    fun m => rfl
  have h2 : (DynamicColorManager.mk 0 (fun _ => 0)).iterUpdate 2
      = ((DynamicColorManager.mk 0 (fun _ => 0)).update).update := rfl
  rw [h2, hu, hu, hs]
  show Int.fract (Int.fract ((0:ℚ) + (0 + 1/100)) + ((0:ℚ) + 1/100 + 1/100))
      ≠ Int.fract ((0:ℚ) + 2 * (1/100))
  rw [fract_fract_add]
  rw [show (0:ℚ) + (0 + 1/100) + ((0:ℚ) + 1/100 + 1/100) = 3/100 by norm_num]
  rw [show (0:ℚ) + 2 * (1/100) = 1/50 by norm_num]
  rw [Int.fract_eq_self.mpr (⟨by norm_num, by norm_num⟩ :
        0 ≤ (3:ℚ)/100 ∧ (3:ℚ)/100 < 1)]
  rw [Int.fract_eq_self.mpr (⟨by norm_num, by norm_num⟩ :
        0 ≤ (1:ℚ)/50 ∧ (1:ℚ)/50 < 1)]
  norm_num

/-- C1 amended: for an element of the catalog whose stored hue starts at
h₀ ∈ [0,1), after N update() calls the hue equals
(h₀ + 0.01·N·(N+1)/2) mod 1.0 — the increment of frame k is 0.01·k, not
a constant 0.01. -/
theorem hue_after_updates (h0 : String → ℚ) (n : Nat) (e : String)
    (he : e ∈ ELEMENTS) (hl : 0 ≤ h0 e) (hu : h0 e < 1) :
    ((DynamicColorManager.mk 0 h0).iterUpdate n).hue e
      = Int.fract (h0 e + (n * (n + 1) : ℚ) / 200) := by
  induction n with
  | zero =>
    have h00 : ((DynamicColorManager.mk 0 h0).iterUpdate 0).hue e = h0 e := rfl
    rw [h00, Nat.cast_zero, show ((0:ℚ) * (0 + 1)) / 200 = 0 by ring, add_zero]
    exact (Int.fract_eq_self.mpr ⟨hl, hu⟩).symm
  | succ n ih =>
    have hstep : ((DynamicColorManager.mk 0 h0).iterUpdate (n + 1)).hue e
        = Int.fract (((DynamicColorManager.mk 0 h0).iterUpdate n).hue e
            + (((DynamicColorManager.mk 0 h0).iterUpdate n).shift + 1/100)) := by
      show (if e ∈ ELEMENTS then
              Int.fract (((DynamicColorManager.mk 0 h0).iterUpdate n).hue e
                + (((DynamicColorManager.mk 0 h0).iterUpdate n).shift + 1/100))
            else ((DynamicColorManager.mk 0 h0).iterUpdate n).hue e) = _
      rw [if_pos he]
    have hmk : (DynamicColorManager.mk 0 h0).shift = 0 := rfl
    rw [hstep, ih, cycler_iter_shift, hmk, fract_fract_add]
    congr 1
    push_cast
    ring

/-- C1 amended witness: three updates from hue 0 land on 0.06 =
(0 + 0.01·3·4/2) mod 1. -/
theorem hue_after_updates_witness :
    "Fire" ∈ ELEMENTS ∧
    ((DynamicColorManager.mk 0 (fun _ => 0)).iterUpdate 3).hue "Fire" = 3/50 := by
  refine ⟨by decide, ?_⟩
  have h := hue_after_updates (fun _ => 0) 3 "Fire" (by decide) (by norm_num) (by norm_num)
  rw [h, Int.fract_eq_self.mpr (by constructor <;> norm_num)]
  norm_num

/-- C3: in the scoring pass, a ball whose left edge has reached x = 0
gives the right side exactly one point (the left side unchanged),
recentres the ball and zeroes both combo meters; each side's score is
monotone, the total grows by exactly 1 on an out-of-bounds crossing and
the scores are untouched otherwise. -/
theorem update_game_state_scoring (g : Game) (rr : ResetRand) :
    (g.ball.rect.left ≤ 0 →
      (g.updateGameState rr).score.2 = g.score.2 + 1 ∧
      (g.updateGameState rr).score.1 = g.score.1 ∧
      (g.updateGameState rr).ball.rect.centerx = WIDTH / 2 ∧
      (g.updateGameState rr).ball.rect.centery = HEIGHT / 2 ∧
      (g.updateGameState rr).player_paddle.combo_meter = 0 ∧
      (g.updateGameState rr).ai_paddle.combo_meter = 0) ∧
    g.score.1 ≤ (g.updateGameState rr).score.1 ∧
    g.score.2 ≤ (g.updateGameState rr).score.2 ∧
    ((g.ball.rect.left ≤ 0 ∨ g.ball.rect.right ≥ WIDTH) →
      (g.updateGameState rr).score.1 + (g.updateGameState rr).score.2
        = g.score.1 + g.score.2 + 1) ∧
    (¬(g.ball.rect.left ≤ 0 ∨ g.ball.rect.right ≥ WIDTH) →
      (g.updateGameState rr).score = g.score) := by
  unfold Game.updateGameState
  by_cases h1 : g.ball.rect.left ≤ 0
  · rw [if_pos (Or.inl h1), if_pos h1]
    refine ⟨fun _ => ⟨rfl, rfl, (reset_rect_center g.ball rr).1,
                     (reset_rect_center g.ball rr).2, rfl, rfl⟩, le_refl _, ?_,
            fun _ => ?_, fun hn => absurd (Or.inl h1) hn⟩
    · show g.score.2 ≤ g.score.2 + 1
      omega
    · show g.score.1 + (g.score.2 + 1) = g.score.1 + g.score.2 + 1
      omega
  · by_cases h2 : g.ball.rect.right ≥ WIDTH
    · rw [if_pos (Or.inr h2), if_neg h1]
      refine ⟨fun hl => absurd hl h1, ?_, le_refl _,
              fun _ => ?_, fun hn => absurd (Or.inr h2) hn⟩
      · show g.score.1 ≤ g.score.1 + 1
        omega
      · show g.score.1 + 1 + g.score.2 = g.score.1 + g.score.2 + 1
        omega
    · rw [if_neg (by tauto)]
      exact ⟨fun hl => absurd hl h1, le_refl _, le_refl _,
             fun ho => absurd ho (by tauto), fun _ => rfl⟩

/-- C3 witness: with the ball one pixel past the left edge the right
side's score goes from 0 to 1, the ball is recentred and both meters are
cleared. -/
theorem update_game_state_scoring_witness :
    gameScored.ball.rect.left ≤ 0 ∧
    ((gameScored.updateGameState resetRand0).score.2 = gameScored.score.2 + 1 ∧
     (gameScored.updateGameState resetRand0).score.1 = gameScored.score.1 ∧
     (gameScored.updateGameState resetRand0).ball.rect.centerx = WIDTH / 2 ∧
     (gameScored.updateGameState resetRand0).ball.rect.centery = HEIGHT / 2 ∧
     (gameScored.updateGameState resetRand0).player_paddle.combo_meter = 0 ∧
     (gameScored.updateGameState resetRand0).ai_paddle.combo_meter = 0) :=
  ⟨by decide, (update_game_state_scoring gameScored resetRand0).1 (by decide)⟩

/-- C2 counterexample: a game state satisfying the multiplier invariant
(player meter 3, multiplier 1.2) in which the ball has crossed the left
edge; the scoring pass zeroes the meter but leaves the multiplier at 1.2,
so afterwards the multiplier is not 1 + floor(0/3)·0.2 = 1. -/
theorem combo_invariant_counterexample :
    comboInv gameScored.player_paddle ∧
    gameScored.ball.rect.left ≤ 0 ∧
    ¬ comboInv ((gameScored.updateGameState resetRand0).player_paddle) := by
  refine ⟨?_, by decide, ?_⟩
  · show (6:ℚ)/5 = 1 + ((3 / 3 : Nat) : ℚ) * (1/5)
    norm_num
  · show ¬ ((6:ℚ)/5 = 1 + ((0 / 3 : Nat) : ℚ) * (1/5))
    norm_num

/-- C2 amended: the multiplier equals 1 + floor(m/3)·0.2 for the current
meter m initially and after every collision-pass recomputation (the pass
preserves the invariant for both paddles); the scoring reset, however,
zeroes the meter without recomputing the multiplier, so the equality can
fail between a scored point and the next paddle hit. -/
theorem combo_multiplier_recompute (g : Game) (getColor : String → Color)
    (sup1 sup2 : Nat → PRand)
    (hp : comboInv g.player_paddle) (ha : comboInv g.ai_paddle) :
    comboInv (g.handleCollisions getColor sup1 sup2).player_paddle ∧
    comboInv (g.handleCollisions getColor sup1 sup2).ai_paddle ∧
    ∀ (x y : Int) (e : String) (b : Bool), comboInv (Paddle.init x y e b) := by
  have hinit : ∀ (x y : Int) (e : String) (b : Bool), comboInv (Paddle.init x y e b) := by
    intro x y e b
    show (1:ℚ) = 1 + ((0 / 3 : Nat) : ℚ) * (1/5)
    norm_num
  refine ⟨?_, ?_, hinit⟩ <;>
  · simp only [Game.handleCollisions, Game.wallBounce, Game.paddleHitPlayer,
               Game.paddleHitAI, Game.createCollisionParticles]
    split_ifs <;> first | exact hp | exact ha | (unfold comboInv; rfl)

/-- C2 amended witness: starting from the initial multipliers, a
collision pass on a state where the ball overlaps the player paddle
keeps both paddles' multipliers derived from their meters. -/
theorem combo_multiplier_recompute_witness :
    comboInv gameHit.player_paddle ∧ comboInv gameHit.ai_paddle ∧
    (comboInv (gameHit.handleCollisions constColor supply0 supply0).player_paddle ∧
     comboInv (gameHit.handleCollisions constColor supply0 supply0).ai_paddle ∧
     ∀ (x y : Int) (e : String) (b : Bool), comboInv (Paddle.init x y e b)) := by
  have h1 : comboInv gameHit.player_paddle := by
    show (1:ℚ) = 1 + ((0 / 3 : Nat) : ℚ) * (1/5)
    norm_num
  have h2 : comboInv gameHit.ai_paddle := by
    show (1:ℚ) = 1 + ((0 / 3 : Nat) : ℚ) * (1/5)
    norm_num
  exact ⟨h1, h2, combo_multiplier_recompute gameHit constColor supply0 supply0 h1 h2⟩

/-- The wall bounce changes at most the ball's vertical velocity. -/
theorem wallBounce_fields (g : Game) :
    (g.wallBounce).ball.rect = g.ball.rect ∧ (g.wallBounce).ball.dx = g.ball.dx ∧
    (g.wallBounce).ball.element = g.ball.element ∧
    (g.wallBounce).player_paddle = g.player_paddle ∧
    (g.wallBounce).ai_paddle = g.ai_paddle ∧
    (g.wallBounce).particles = g.particles := by
  unfold Game.wallBounce
  split_ifs <;> exact ⟨rfl, rfl, rfl, rfl, rfl, rfl⟩

/-- The player paddle check never changes the ball's vertical velocity. -/
theorem paddleHitPlayer_dy (g : Game) (gc : String → Color) (sup : Nat → PRand) :
    (g.paddleHitPlayer gc sup).ball.dy = g.ball.dy := by
  unfold Game.paddleHitPlayer Game.createCollisionParticles
  split_ifs <;> rfl

/-- The AI paddle check never changes the ball's vertical velocity. -/
theorem paddleHitAI_dy (g : Game) (gc : String → Color) (sup : Nat → PRand) :
    (g.paddleHitAI gc sup).ball.dy = g.ball.dy := by
  unfold Game.paddleHitAI Game.createCollisionParticles
  split_ifs <;> rfl

/-- On wall contact the vertical velocity is negated. -/
theorem wallBounce_dy_hit (g : Game)
    (h : g.ball.rect.top ≤ 0 ∨ g.ball.rect.bottom ≥ HEIGHT) :
    (g.wallBounce).ball.dy = g.ball.dy * (-1) := by
  unfold Game.wallBounce
  rw [if_pos h]

/-- Away from the walls the wall check is the identity. -/
theorem wallBounce_miss (g : Game)
    (h : ¬(g.ball.rect.top ≤ 0 ∨ g.ball.rect.bottom ≥ HEIGHT)) :
    g.wallBounce = g := by
  unfold Game.wallBounce
  rw [if_neg h]

/-- Effects of the player iteration when the ball overlaps the player
paddle. -/
theorem paddleHitPlayer_hit (g : Game) (gc : String → Color) (sup : Nat → PRand)
    (h : g.ball.rect.colliderect g.player_paddle.rect = true) :
    (g.paddleHitPlayer gc sup).ball.dx = g.ball.dx * (-11/10) ∧
    (g.paddleHitPlayer gc sup).ball.rect = g.ball.rect ∧
    (g.paddleHitPlayer gc sup).player_paddle.combo_meter
      = g.player_paddle.combo_meter + 1 ∧
    (g.paddleHitPlayer gc sup).player_paddle.combo_multiplier
      = 1 + (((g.player_paddle.combo_meter + 1) / 3 : Nat) : ℚ) * (1/5) ∧
    (g.paddleHitPlayer gc sup).ai_paddle = g.ai_paddle ∧
    (g.paddleHitPlayer gc sup).particles
      = g.particles ++ (List.range 20).map (fun i =>
          Particle.make (g.ball.rect.centerx : ℚ) (g.ball.rect.centery : ℚ)
            (gc g.ball.element) (sup i)) := by
  unfold Game.paddleHitPlayer Game.createCollisionParticles
  rw [if_pos h]
  exact ⟨rfl, rfl, rfl, rfl, rfl, rfl⟩

/-- The player iteration is the identity when there is no overlap. -/
theorem paddleHitPlayer_miss (g : Game) (gc : String → Color) (sup : Nat → PRand)
    (h : g.ball.rect.colliderect g.player_paddle.rect = false) :
    g.paddleHitPlayer gc sup = g := by
  unfold Game.paddleHitPlayer
  rw [if_neg (by simp [h])]

/-- Effects of the AI iteration when the ball overlaps the AI paddle. -/
theorem paddleHitAI_hit (g : Game) (gc : String → Color) (sup : Nat → PRand)
    (h : g.ball.rect.colliderect g.ai_paddle.rect = true) :
    (g.paddleHitAI gc sup).ball.dx = g.ball.dx * (-11/10) ∧
    (g.paddleHitAI gc sup).ball.rect = g.ball.rect ∧
    (g.paddleHitAI gc sup).ai_paddle.combo_meter
      = g.ai_paddle.combo_meter + 1 ∧
    (g.paddleHitAI gc sup).ai_paddle.combo_multiplier
      = 1 + (((g.ai_paddle.combo_meter + 1) / 3 : Nat) : ℚ) * (1/5) ∧
    (g.paddleHitAI gc sup).player_paddle = g.player_paddle ∧
    (g.paddleHitAI gc sup).particles
      = g.particles ++ (List.range 20).map (fun i =>
          Particle.make (g.ball.rect.centerx : ℚ) (g.ball.rect.centery : ℚ)
            (gc g.ball.element) (sup i)) := by
  unfold Game.paddleHitAI Game.createCollisionParticles
  rw [if_pos h]
  exact ⟨rfl, rfl, rfl, rfl, rfl, rfl⟩

/-- The AI iteration is the identity when there is no overlap. -/
theorem paddleHitAI_miss (g : Game) (gc : String → Color) (sup : Nat → PRand)
    (h : g.ball.rect.colliderect g.ai_paddle.rect = false) :
    g.paddleHitAI gc sup = g := by
  unfold Game.paddleHitAI
  rw [if_neg (by simp [h])]

/-- C4: when the ball's rect overlaps exactly one paddle, the collision
pass replaces dx by −1.1·dx (sign inverted, magnitude amplified, no
cap), increments that paddle's combo meter, recomputes that paddle's
multiplier from the new meter value, leaves the other paddle's meter
unchanged, and appends exactly 20 particles, each at the ball's centre. -/
theorem collision_hit_effects (g : Game) (getColor : String → Color)
    (sup1 sup2 : Nat → PRand) :
    (g.ball.rect.colliderect g.player_paddle.rect = true →
     g.ball.rect.colliderect g.ai_paddle.rect = false →
      ((g.handleCollisions getColor sup1 sup2).ball.dx = -(11/10) * g.ball.dx ∧
       (g.handleCollisions getColor sup1 sup2).player_paddle.combo_meter
         = g.player_paddle.combo_meter + 1 ∧
       (g.handleCollisions getColor sup1 sup2).player_paddle.combo_multiplier
         = 1 + (((g.player_paddle.combo_meter + 1) / 3 : Nat) : ℚ) * (1/5) ∧
       (g.handleCollisions getColor sup1 sup2).ai_paddle.combo_meter
         = g.ai_paddle.combo_meter ∧
       (g.handleCollisions getColor sup1 sup2).particles.length
         = g.particles.length + 20 ∧
       ∀ q ∈ (g.handleCollisions getColor sup1 sup2).particles.drop g.particles.length,
         q.x = (g.ball.rect.centerx : ℚ) ∧ q.y = (g.ball.rect.centery : ℚ))) ∧
    (g.ball.rect.colliderect g.ai_paddle.rect = true →
     g.ball.rect.colliderect g.player_paddle.rect = false →
      ((g.handleCollisions getColor sup1 sup2).ball.dx = -(11/10) * g.ball.dx ∧
       (g.handleCollisions getColor sup1 sup2).ai_paddle.combo_meter
         = g.ai_paddle.combo_meter + 1 ∧
       (g.handleCollisions getColor sup1 sup2).ai_paddle.combo_multiplier
         = 1 + (((g.ai_paddle.combo_meter + 1) / 3 : Nat) : ℚ) * (1/5) ∧
       (g.handleCollisions getColor sup1 sup2).player_paddle.combo_meter
         = g.player_paddle.combo_meter ∧
       (g.handleCollisions getColor sup1 sup2).particles.length
         = g.particles.length + 20 ∧
       ∀ q ∈ (g.handleCollisions getColor sup1 sup2).particles.drop g.particles.length,
         q.x = (g.ball.rect.centerx : ℚ) ∧ q.y = (g.ball.rect.centery : ℚ))) := by
  obtain ⟨wrect, wdx, welem, wpp, wap, wparts⟩ := wallBounce_fields g
  constructor
  · intro hp hn
    have hp1 : (g.wallBounce).ball.rect.colliderect
        (g.wallBounce).player_paddle.rect = true := by
      rw [wrect, wpp]; exact hp
    obtain ⟨pdx, prect, pmeter, pmult, pai, pparts⟩ :=
      paddleHitPlayer_hit (g.wallBounce) getColor sup1 hp1
    have hn2 : ((g.wallBounce).paddleHitPlayer getColor sup1).ball.rect.colliderect
        ((g.wallBounce).paddleHitPlayer getColor sup1).ai_paddle.rect = false := by
      rw [prect, wrect, pai, wap]; exact hn
    have hdef : g.handleCollisions getColor sup1 sup2
        = (g.wallBounce).paddleHitPlayer getColor sup1 := by
      show ((g.wallBounce).paddleHitPlayer getColor sup1).paddleHitAI getColor sup2 = _
      rw [paddleHitAI_miss _ getColor sup2 hn2]
    rw [hdef]
    refine ⟨?_, ?_, ?_, ?_, ?_, ?_⟩
    · rw [pdx, wdx]; ring
    · rw [pmeter, wpp]
    · rw [pmult, wpp]
    · rw [pai, wap]
    · rw [pparts, wparts]
      simp
    · simp only [pparts, wparts, wrect, welem]
      rw [List.drop_left]
      intro q hq
      simp only [List.mem_map, List.mem_range] at hq
      obtain ⟨i, _, rfl⟩ := hq
      exact ⟨rfl, rfl⟩
  · intro ha hn
    have hmiss1 : (g.wallBounce).paddleHitPlayer getColor sup1 = g.wallBounce := by
      apply paddleHitPlayer_miss
      rw [wrect, wpp]; exact hn
    have ha2 : (g.wallBounce).ball.rect.colliderect
        (g.wallBounce).ai_paddle.rect = true := by
      rw [wrect, wap]; exact ha
    obtain ⟨adx, arect, ameter, amult, apl, aparts⟩ :=
      paddleHitAI_hit (g.wallBounce) getColor sup2 ha2
    have hdef : g.handleCollisions getColor sup1 sup2
        = (g.wallBounce).paddleHitAI getColor sup2 := by
      show ((g.wallBounce).paddleHitPlayer getColor sup1).paddleHitAI getColor sup2 = _
      rw [hmiss1]
    rw [hdef]
    refine ⟨?_, ?_, ?_, ?_, ?_, ?_⟩
    · rw [adx, wdx]; ring
    · rw [ameter, wap]
    · rw [amult, wap]
    · rw [apl, wpp]
    · rw [aparts, wparts]
      simp
    · simp only [aparts, wparts, wrect, welem]
      rw [List.drop_left]
      intro q hq
      simp only [List.mem_map, List.mem_range] at hq
      obtain ⟨i, _, rfl⟩ := hq
      exact ⟨rfl, rfl⟩

/-- C4 witness: with the ball overlapping the player paddle (meter 0),
the collision pass flips and amplifies dx, sets the meter to 1, derives
the multiplier from it, and adds 20 particles at the ball's centre. -/
theorem collision_hit_effects_witness :
    gameHit.ball.rect.colliderect gameHit.player_paddle.rect = true ∧
    gameHit.ball.rect.colliderect gameHit.ai_paddle.rect = false ∧
    ((gameHit.handleCollisions constColor supply0 supply0).ball.dx
       = -(11/10) * gameHit.ball.dx ∧
     (gameHit.handleCollisions constColor supply0 supply0).player_paddle.combo_meter
       = gameHit.player_paddle.combo_meter + 1 ∧
     (gameHit.handleCollisions constColor supply0 supply0).player_paddle.combo_multiplier
       = 1 + (((gameHit.player_paddle.combo_meter + 1) / 3 : Nat) : ℚ) * (1/5) ∧
     (gameHit.handleCollisions constColor supply0 supply0).ai_paddle.combo_meter
       = gameHit.ai_paddle.combo_meter ∧
     (gameHit.handleCollisions constColor supply0 supply0).particles.length
       = gameHit.particles.length + 20 ∧
     ∀ q ∈ (gameHit.handleCollisions constColor supply0 supply0).particles.drop
         gameHit.particles.length,
       q.x = (gameHit.ball.rect.centerx : ℚ) ∧ q.y = (gameHit.ball.rect.centery : ℚ)) :=
  ⟨by decide, by decide,
   (collision_hit_effects gameHit constColor supply0 supply0).1 (by decide) (by decide)⟩

/-- The particle pass of Paddle.update does not move the paddle or
change its control mode. -/
theorem updateParticles_rect (p : Paddle) (rnd : PaddleRand) (gc : String → Color) :
    (p.updateParticles rnd gc).rect = p.rect ∧
    (p.updateParticles rnd gc).is_ai = p.is_ai := by
  unfold Paddle.updateParticles
  split <;> exact ⟨rfl, rfl⟩

/-- The overshoot window only depends on the rect and the control
mode. -/
theorem inWindow_congr {p q : Paddle} (hr : p.rect = q.rect)
    (ha : p.is_ai = q.is_ai) : inWindow p ↔ inWindow q := by
  unfold inWindow moveLimit Rect.top Rect.bottom
  rw [hr, ha]

/-- C5 counterexample: the player paddle one pixel below the top wall
with the up key held ends the frame at top = −4, outside the screen —
the bound is checked before the 5-pixel move, not after, so Paddle.update
does not keep the rect within the screen. -/
theorem paddle_bounds_counterexample :
    (paddleEdge.update ⟨true, false, false⟩ ball0 paddleRand0 constColor).rect.top < 0 := by
  decide

/-- C5 amended: after Paddle.update the paddle can protrude past a
screen edge, but by at most one move minus one pixel (4 for the player,
AI_SPEED − 1 = 6 for the AI): the window
[1 − move, HEIGHT + move − 1] on [top, bottom] is invariant under
Paddle.update for any key state and any ball position. -/
theorem paddle_update_window (p : Paddle) (keys : Keys) (ball : Ball)
    (rnd : PaddleRand) (gc : String → Color) (h : inWindow p) :
    inWindow (p.update keys ball rnd gc) := by
  have hstep : ∀ q : Paddle, inWindow q → inWindow (q.updateParticles rnd gc) := by
    intro q hq
    obtain ⟨hr, ha⟩ := updateParticles_rect q rnd gc
    exact (inWindow_congr hr ha).mpr hq
  unfold Paddle.update
  apply hstep
  by_cases hai : p.is_ai = true
  · rw [if_pos hai]
    unfold Paddle.aiMove
    dsimp only
    split_ifs <;>
      simp [inWindow, moveLimit, Rect.top, Rect.bottom, HEIGHT, AI_SPEED, hai] at * <;>
      omega
  · have hai' : p.is_ai = false := by simpa using hai
    rw [if_neg hai]
    dsimp only
    split_ifs <;>
      simp [inWindow, moveLimit, Rect.top, Rect.bottom, HEIGHT, AI_SPEED, hai'] at * <;>
      omega

/-- C5 amended witness: the paddle that moved to top = −4 stays inside
the overshoot window. -/
theorem paddle_update_window_witness :
    inWindow paddleEdge ∧
    inWindow (paddleEdge.update ⟨true, false, false⟩ ball0 paddleRand0 constColor) :=
  ⟨by decide,
   paddle_update_window paddleEdge ⟨true, false, false⟩ ball0 paddleRand0 constColor
     (by decide)⟩

/-- C6 counterexample: a ball one pixel below the top wall (top = 1)
with dy = +3 moves away from the wall (screen y grows downward), so
after the movement and the collision pass dy is still 3, not −3. -/
theorem top_wall_claim_counterexample :
    (Game.handleCollisions { gameTop with ball := gameTop.ball.update 1 ballRand0 constColor }
        constColor supply0 supply0).ball.dy = 3 ∧
    ¬ ((Game.handleCollisions { gameTop with ball := gameTop.ball.update 1 ballRand0 constColor }
        constColor supply0 supply0).ball.dy = -3) := by
  have hy : ({ gameTop with ball := gameTop.ball.update 1 ballRand0 constColor }
      : Game).ball.rect.y = 4 := by
    show ratTrunc ((gameTop.ball.rect.y : ℚ) + gameTop.ball.dy * 1) = 4
    have e1 : gameTop.ball.rect.y = 1 := rfl
    have e2 : gameTop.ball.dy = 3 := rfl
    rw [e1, e2]
    exact ratTrunc_eval (by push_cast; norm_num)
  have hh : ({ gameTop with ball := gameTop.ball.update 1 ballRand0 constColor }
      : Game).ball.rect.h = 15 := rfl
  have hcond : ¬ (({ gameTop with ball := gameTop.ball.update 1 ballRand0 constColor }
      : Game).ball.rect.top ≤ 0 ∨
      ({ gameTop with ball := gameTop.ball.update 1 ballRand0 constColor }
      : Game).ball.rect.bottom ≥ HEIGHT) := by
    unfold Rect.top Rect.bottom HEIGHT
    omega
  have h1 : (Game.handleCollisions
        { gameTop with ball := gameTop.ball.update 1 ballRand0 constColor }
        constColor supply0 supply0).ball.dy
      = (({ gameTop with ball := gameTop.ball.update 1 ballRand0 constColor }
          : Game).wallBounce).ball.dy := by
    show (((({ gameTop with ball := gameTop.ball.update 1 ballRand0 constColor }
        : Game).wallBounce).paddleHitPlayer constColor supply0).paddleHitAI
          constColor supply0).ball.dy = _
    rw [paddleHitAI_dy, paddleHitPlayer_dy]
  rw [h1, wallBounce_miss _ hcond]
  have hdy : ({ gameTop with ball := gameTop.ball.update 1 ballRand0 constColor }
      : Game).ball.dy = 3 := rfl
  rw [hdy]
  norm_num

/-- C6 amended: a ball one pixel below the top wall (top = 1) moving
toward it with dy = −3 is reflected by the collision pass after the
movement step: dy becomes +3, sign inverted and magnitude preserved.
The published scenario holds with the sign of dy flipped to match the
screen's downward-growing y axis. -/
theorem top_wall_reflects (g : Game) (rnd : BallRand) (gc : String → Color)
    (sup1 sup2 : Nat → PRand) (hy : g.ball.rect.y = 1) (hdy : g.ball.dy = -3) :
    (Game.handleCollisions { g with ball := g.ball.update 1 rnd gc }
        gc sup1 sup2).ball.dy = 3 := by
  have hrecty : ({ g with ball := g.ball.update 1 rnd gc } : Game).ball.rect.y = -2 := by
    show ratTrunc ((g.ball.rect.y : ℚ) + g.ball.dy * 1) = -2
    rw [hy, hdy]
    exact ratTrunc_eval (by push_cast; norm_num)
  have hcond : ({ g with ball := g.ball.update 1 rnd gc } : Game).ball.rect.top ≤ 0 ∨
      ({ g with ball := g.ball.update 1 rnd gc } : Game).ball.rect.bottom ≥ HEIGHT := by
    left
    unfold Rect.top
    omega
  have h1 : (Game.handleCollisions { g with ball := g.ball.update 1 rnd gc }
        gc sup1 sup2).ball.dy
      = (({ g with ball := g.ball.update 1 rnd gc } : Game).wallBounce).ball.dy := by
    show (((({ g with ball := g.ball.update 1 rnd gc }
        : Game).wallBounce).paddleHitPlayer gc sup1).paddleHitAI gc sup2).ball.dy = _
    rw [paddleHitAI_dy, paddleHitPlayer_dy]
  rw [h1, wallBounce_dy_hit _ hcond]
  have hdy' : ({ g with ball := g.ball.update 1 rnd gc } : Game).ball.dy = -3 := hdy
  rw [hdy']
  norm_num

/-- C6 amended witness: the concrete ball at top = 1 with dy = −3 comes
out of the frame with dy = 3. -/
theorem top_wall_reflects_witness :
    gameTopUp.ball.rect.y = 1 ∧ gameTopUp.ball.dy = -3 ∧
    (Game.handleCollisions { gameTopUp with ball := gameTopUp.ball.update 1 ballRand0 constColor }
        constColor supply0 supply0).ball.dy = 3 :=
  ⟨rfl, rfl,
   top_wall_reflects gameTopUp ballRand0 constColor supply0 supply0 rfl rfl⟩

end Pong
